import Mathlib

/-!
Shallow embedding of the federated-authentication pipeline of
`src/sharepyle/creds.py` (functions `sf_refresh`, `get_okta_session_token`,
`get_sharefile_saml_request`, `get_sharefile_saml_response`,
`get_sharefile_auth_code`, `get_sharefile_access_tokens`,
`get_sharefile_credentials`).

HTTP traffic is modelled by an environment record `Env` holding, for each
stage, the result of that stage's HTTP exchange: `Except.error e` when the
request or the body decoding raised, `Except.ok r` with the decoded response
otherwise.  Each stage function embeds the pure processing the Python code
performs on the received response.  Time is modelled in whole seconds
(`millinow() / 1000` in the source).
-/

set_option autoImplicit false

/-- The exception kinds relevant to `creds.py`.  The first five are Python
exception classes the code can actually raise; the last three are the
exception classes named by the design document (`AuthenticationError`,
`ProtocolParseError`, `TokenExchangeError`), which are distinct classes and
are included so that statements can compare the exception actually raised
against the one the design names. -/
inductive PyErr where
  | attributeError
  | typeError
  | indexError
  | unboundLocalError
  | requestError
  | authenticationError
  | protocolParseError
  | tokenExchangeError
  deriving DecidableEq, Repr

/-- Decoded JSON body of the stage-1 Okta `/authn` response: only the
`sessionToken` field is read by the code (`o.json().get('sessionToken')`). -/
structure OktaResponse where
  sessionToken : Option String
  deriving DecidableEq, Repr

/-- An `<input>` element of a scraped HTML page, with the three attributes
the code reads (`id`, `name`, `value`); `none` means the attribute is
absent. -/
structure HtmlInput where
  id : Option String
  name : Option String
  value : Option String
  deriving DecidableEq, Repr

/-- An HTML page, abstracted to the list of its `<input>` elements in
document order — all the code ever does with a page is
`soup.find('input', {...})`. -/
abbrev Html := List HtmlInput

/-- One recorded redirect of a response's `history`; `location` is its
`Location` header (`none` when the header is absent). -/
structure Redirect where
  location : Option String
  deriving DecidableEq, Repr

/-- Decoded JSON body of a token-endpoint response (stage 5 and refresh):
the three fields the code reads with `.get`, each possibly absent. -/
structure TokenResponse where
  access_token : Option String
  refresh_token : Option String
  expires_in : Option Nat
  deriving DecidableEq, Repr

/-- The credential object (`http_requester.creds.Credentials` as constructed
and mutated by `creds.py`): bearer token, refresh token, absolute expiration
(seconds), and the client identity / token URL used for refresh. -/
structure Creds where
  token : Option String
  refresh_token : Option String
  expiration : Nat
  client_id : String
  client_secret : String
  token_url : String
  deriving DecidableEq, Repr

/-- Configuration constant `SHAREFILE_CLIENT_ID` (loaded from config.yaml). -/
def SHAREFILE_CLIENT_ID : String := "sharefile-client-id"

/-- Configuration constant `SHAREFILE_CLIENT_SECRET` (loaded from config.yaml). -/
def SHAREFILE_CLIENT_SECRET : String := "sharefile-client-secret"

/-- Configuration constant `SHAREFILE_BASE_URL` (loaded from config.yaml). -/
def SHAREFILE_BASE_URL : String := "https://sub.sf-api.com/sf/v3/"

/-- Modelled from the spec: `http_requester.creds.Credentials.valid` is not
part of this repository; the design document defines it by
`valid` ⇔ `now < expiration`. -/
def Creds.valid (c : Creds) (now : Nat) : Bool :=
  decide (now < c.expiration)

/-- Modelled from the spec: `http_requester.creds.Credentials.expired` is not
part of this repository; per the design document's state machine a loaded
credential is expired exactly when it is not valid. -/
def Creds.expired (c : Creds) (now : Nat) : Bool :=
  !(c.valid now)

/-- Python truthiness of an optional string (`if ... creds.refresh_token:`):
`None` and the empty string are falsy. -/
def pyTruthy : Option String → Bool
  | none => false
  | some s => decide (s ≠ "")

/-- Python's `s.split(sep, 1)` restricted to what the code uses: returns
`some (before, after)` split at the first occurrence of `sep`, `none` when
`sep` does not occur (in which case a `[1]` subscript raises `IndexError`). -/
def splitOnceAux (sep : Char) : List Char → Option (List Char × List Char)
  | [] => none
  | c :: rest =>
    if c = sep then some ([], rest)
    else (splitOnceAux sep rest).map (fun p => (c :: p.1, p.2))

/-- String-level wrapper for `splitOnceAux`. -/
def splitOnce (sep : Char) (s : String) : Option (String × String) :=
  (splitOnceAux sep s.data).map (fun p => (String.mk p.1, String.mk p.2))

/-- Value of a hexadecimal digit, used by percent-decoding. -/
def hexVal (c : Char) : Option Nat :=
  if '0' ≤ c ∧ c ≤ '9' then some (c.toNat - '0'.toNat)
  else if 'a' ≤ c ∧ c ≤ 'f' then some (c.toNat - 'a'.toNat + 10)
  else if 'A' ≤ c ∧ c ≤ 'F' then some (c.toNat - 'A'.toNat + 10)
  else none

/-- Percent-decoding (`urllib.parse.unquote`) on the character list: a `%` followed by two hex
digits decodes to the corresponding character, anything else is copied. -/
def unquoteAux : List Char → List Char
  | [] => []
  | '%' :: a :: b :: rest =>
    match hexVal a, hexVal b with
    | some x, some y => Char.ofNat (16 * x + y) :: unquoteAux rest
    | _, _ => '%' :: unquoteAux (a :: b :: rest)
  | c :: rest => c :: unquoteAux rest

/-- String-level `urllib.parse.unquote`. -/
def unquote (s : String) : String :=
  String.mk (unquoteAux s.data)

/-- Stage 1 (`get_okta_session_token`): posts the username/password to the
Okta `/authn` endpoint and returns `o.json().get('sessionToken')` — the
optional `sessionToken` field, with no error raised when it is absent. -/
def get_okta_session_token (resp : OktaResponse) : Except PyErr (Option String) :=
  Except.ok resp.sessionToken

/-- Stage 2 (`get_sharefile_saml_request`): scrapes the SAML login page for
`<input id="fromURI">`.  `soup.find` returning `None` makes the `.get('value')`
call raise `AttributeError`; a missing `value` attribute makes
`urllib.parse.unquote(None)` raise `TypeError`; otherwise the value is
percent-decoded, its first character dropped (`[1:]`), and the part after the
first `=` returned (`.split('=', 1)[1]`, `IndexError` when there is no `=`). -/
def get_sharefile_saml_request (page : Html) : Except PyErr String :=
  match page.find? (fun i => i.id = some "fromURI") with
  | none => Except.error PyErr.attributeError
  | some inp =>
    match inp.value with
    | none => Except.error PyErr.typeError
    | some v =>
      match splitOnce '=' (String.mk ((unquote v).data.drop 1)) with
      | none => Except.error PyErr.indexError
      | some p => Except.ok p.2

/-- Stage 3 (`get_sharefile_saml_response`): scrapes the Okta SSO response
page for `<input name="SAMLResponse">` and returns its `value` attribute
(`None` when the attribute is absent); `soup.find` returning `None` raises
`AttributeError`. -/
def get_sharefile_saml_response (page : Html) : Except PyErr (Option String) :=
  match page.find? (fun i => i.name = some "SAMLResponse") with
  | none => Except.error PyErr.attributeError
  | some inp => Except.ok inp.value

/-- Stage 4 (`get_sharefile_auth_code`): reads `t.history[1]` — the second
recorded redirect, `IndexError` when fewer than two exist — takes its
`location` header (`None.split` raises `AttributeError` when absent), and
extracts `location.split('?', 1)[1].split('=', 1)[1].split('&', 1)[0]`:
the substring after the first `=` of the query component, up to the next
`&`. -/
def get_sharefile_auth_code (history : List Redirect) : Except PyErr String :=
  match history.get? 1 with
  | none => Except.error PyErr.indexError
  | some r =>
    match r.location with
    | none => Except.error PyErr.attributeError
    | some loc =>
      match splitOnce '?' loc with
      | none => Except.error PyErr.indexError
      | some q =>
        match splitOnce '=' q.2 with
        | none => Except.error PyErr.indexError
        | some ev =>
          match splitOnce '&' ev.2 with
          | none => Except.ok ev.2
          | some av => Except.ok av.1

/-- Stage 5 (`get_sharefile_access_tokens`): reads `access_token` and
`refresh_token` with `.get` (no error when absent) and computes
`expiration = millinow() / 1000 + expires_in`; an absent `expires_in` makes
the addition raise `TypeError`. -/
def get_sharefile_access_tokens (now : Nat) (resp : TokenResponse) :
    Except PyErr (Option String × Option String × Nat) :=
  match resp.expires_in with
  | none => Except.error PyErr.typeError
  | some e => Except.ok (resp.access_token, resp.refresh_token, now + e)

/-- The refresh strategy `sf_refresh`: posts the refresh-token grant (`refresh_resp` is the result
of that HTTP exchange, `Except.error` when `requests.post` or `r.json()`
raised, in which case nothing has been assigned yet), then assigns
`self._token` and `self._refresh_token` from the response, then computes
`self._expiration`; an absent `expires_in` raises `TypeError` at that last
step, after the first two fields were already overwritten. -/
def sf_refresh (refresh_resp : Except PyErr TokenResponse) (now : Nat)
    (c : Creds) : Except PyErr Unit × Creds :=
  match refresh_resp with
  | Except.error e => (Except.error e, c)
  | Except.ok j =>
    let c1 : Creds := { c with token := j.access_token, refresh_token := j.refresh_token }
    match j.expires_in with
    | none => (Except.error PyErr.typeError, c1)
    | some e => (Except.ok (), { c1 with expiration := now + e })

/-- The environment of one call to `get_sharefile_credentials`: the content
of the pickled credential slot (`none` when `sftoken.pickle` does not exist),
the current time in seconds, and the outcome of each HTTP exchange the call
may perform (stage 1 – stage 5 and the refresh POST), each `Except.error`
when the request itself or the body decoding raised. -/
structure Env where
  stored : Option Creds
  now : Nat
  okta : Except PyErr OktaResponse
  saml_login : Except PyErr Html
  sso : Except PyErr Html
  acs : Except PyErr (List Redirect)
  token_resp : Except PyErr TokenResponse
  refresh_resp : Except PyErr TokenResponse
  deriving Repr

/-- Observable effects of one call: whether the persisted credential was
read, which of the five handshake stages issued their HTTP call, whether
`creds.refresh()` was invoked, and what (if anything) was pickled back. -/
structure Trace where
  loadAttempted : Bool
  stage1 : Bool
  stage2 : Bool
  stage3 : Bool
  stage4 : Bool
  stage5 : Bool
  refreshCalled : Bool
  written : Option Creds
  deriving DecidableEq, Repr

/-- The all-false trace (nothing read, no stage run, nothing written). -/
def Trace.base : Trace :=
  ⟨false, false, false, false, false, false, false, none⟩

/-- The credential built at the end of the handshake branch of
`get_sharefile_credentials` from the stage-5 triple:
`Credentials(token=..., refresh_token=..., expiration=..., client_id=...,
client_secret=..., token_url=SHAREFILE_BASE_URL, ...)`. -/
def mkCreds (t : Option String × Option String × Nat) : Creds :=
  { token := t.1
    refresh_token := t.2.1
    expiration := t.2.2
    client_id := SHAREFILE_CLIENT_ID
    client_secret := SHAREFILE_CLIENT_SECRET
    token_url := SHAREFILE_BASE_URL }

/-- The five-stage handshake sequence of the `else` branch of
`get_sharefile_credentials` (lines 216–234): stages run in strict order, an
exception at any stage propagates and the following stages never issue their
HTTP calls. -/
def runHandshake (env : Env) : Except PyErr Creds × Trace :=
  let t1 : Trace := { Trace.base with stage1 := true }
  match env.okta with
  | Except.error e => (Except.error e, t1)
  | Except.ok oresp =>
    match get_okta_session_token oresp with
    | Except.error e => (Except.error e, t1)
    | Except.ok _token =>
      let t2 : Trace := { t1 with stage2 := true }
      match env.saml_login with
      | Except.error e => (Except.error e, t2)
      | Except.ok page2 =>
        match get_sharefile_saml_request page2 with
        | Except.error e => (Except.error e, t2)
        | Except.ok _samlReq =>
          let t3 : Trace := { t2 with stage3 := true }
          match env.sso with
          | Except.error e => (Except.error e, t3)
          | Except.ok page3 =>
            match get_sharefile_saml_response page3 with
            | Except.error e => (Except.error e, t3)
            | Except.ok _samlResp =>
              let t4 : Trace := { t3 with stage4 := true }
              match env.acs with
              | Except.error e => (Except.error e, t4)
              | Except.ok hist =>
                match get_sharefile_auth_code hist with
                | Except.error e => (Except.error e, t4)
                | Except.ok _code =>
                  let t5 : Trace := { t4 with stage5 := true }
                  match env.token_resp with
                  | Except.error e => (Except.error e, t5)
                  | Except.ok tresp =>
                    match get_sharefile_access_tokens env.now tresp with
                    | Except.error e => (Except.error e, t5)
                    | Except.ok tok => (Except.ok (mkCreds tok), t5)

/-- The `with open(token_path, 'wb'): pickle.dump(creds, token)` epilogue
(lines 235–236): `token_path` is only assigned inside the
`if not force_refresh:` block, so when `force_refresh` is true the name is
unbound here and Python raises `UnboundLocalError`; otherwise the credential
is pickled and returned. -/
def persistCreds (force_refresh : Bool) (c : Creds) (t : Trace) :
    Except PyErr Creds × Trace :=
  if force_refresh then (Except.error PyErr.unboundLocalError, t)
  else (Except.ok c, { t with written := some c })

/-- The handshake branch followed by the persist epilogue, with the load
flag carried into the trace. -/
def runFullAndPersist (env : Env) (force_refresh : Bool) (la : Bool) :
    Except PyErr Creds × Trace :=
  match runHandshake env with
  | (Except.error e, t) => (Except.error e, { t with loadAttempted := la })
  | (Except.ok c, t) => persistCreds force_refresh c { t with loadAttempted := la }

/-- Top-level call `get_sharefile_credentials(session, force_refresh)` (lines 188–237):
unless `force_refresh` is set, load the pickled credential when the file
exists; when a credential was loaded and is valid, return it as is; when it
was loaded, is expired and has a truthy refresh token, call
`creds.refresh()` (bound to `sf_refresh`, any exception propagating) and
then persist; in every other case run the five-stage handshake and persist. -/
def get_sharefile_credentials (env : Env) (force_refresh : Bool) :
    Except PyErr Creds × Trace :=
  let loaded : Option Creds := if force_refresh then none else env.stored
  let la : Bool := !force_refresh && env.stored.isSome
  match loaded with
  | some c =>
    if c.valid env.now then
      (Except.ok c, { Trace.base with loadAttempted := la })
    else if c.expired env.now && pyTruthy c.refresh_token then
      match sf_refresh env.refresh_resp env.now c with
      | (Except.error e, _) =>
        (Except.error e, { Trace.base with loadAttempted := la, refreshCalled := true })
      | (Except.ok _, c1) =>
        persistCreds force_refresh c1
          { Trace.base with loadAttempted := la, refreshCalled := true }
    else
      runFullAndPersist env force_refresh la
  | none => runFullAndPersist env force_refresh la

/-- A persisted credential that is still valid at the fixture time 50. -/
def credValid : Creds :=
  { token := some "tok"
    refresh_token := some "rt"
    expiration := 100
    client_id := SHAREFILE_CLIENT_ID
    client_secret := SHAREFILE_CLIENT_SECRET
    token_url := SHAREFILE_BASE_URL }

/-- A persisted credential already expired at the fixture time 50, with a
non-empty refresh token. -/
def credExpired : Creds := { credValid with expiration := 10 }

/-- A persisted credential already expired at the fixture time 50, with an
empty refresh token. -/
def credExpiredNoRT : Creds := { credValid with expiration := 10, refresh_token := some "" }

/-- Stage-2 fixture page containing the expected `<input id="fromURI">`. -/
def pageFromURI : Html :=
  [{ id := some "fromURI", name := none, value := some "/x=saml-req" }]

/-- Stage-2 fixture page with no `<input id="fromURI">`. -/
def pageNoFromURI : Html :=
  [{ id := some "other", name := none, value := some "v" }]

/-- Stage-3 fixture page containing `<input name="SAMLResponse">`. -/
def pageSamlResponse : Html :=
  [{ id := none, name := some "SAMLResponse", value := some "assertion" }]

/-- Stage-4 fixture redirect history with two recorded redirects, the second
carrying the authorization code in its Location header. -/
def histGood : List Redirect :=
  [{ location := some "https://a/b" },
   { location := some "https://h/p?code=abc123&h=1" }]

/-- Stage-5 / refresh fixture response with all three fields present. -/
def tokRespGood : TokenResponse :=
  { access_token := some "newtok", refresh_token := some "newrt", expires_in := some 3600 }

/-- A refresh / stage-5 response whose JSON lacks `expires_in`. -/
def tokRespNoExpiry : TokenResponse :=
  { access_token := some "a2", refresh_token := some "r2", expires_in := none }

/-- Base fixture environment: no persisted credential, time 50, every stage's
HTTP exchange well-formed. -/
def envBase : Env :=
  { stored := none
    now := 50
    okta := Except.ok { sessionToken := some "sess" }
    saml_login := Except.ok pageFromURI
    sso := Except.ok pageSamlResponse
    acs := Except.ok histGood
    token_resp := Except.ok tokRespGood
    refresh_resp := Except.ok tokRespGood }

/-- Fixture: a valid credential is persisted. -/
def envValidStored : Env := { envBase with stored := some credValid }

/-- Fixture: an expired refreshable credential is persisted and the refresh
POST fails with a network error. -/
def envRefreshFail : Env :=
  { envBase with stored := some credExpired, refresh_resp := Except.error PyErr.requestError }

/-- Fixture: the stage-2 response page lacks the `fromURI` input. -/
def envNoFromURI : Env := { envBase with saml_login := Except.ok pageNoFromURI }

/-- Fixture: the stage-5 token response lacks `access_token` but carries
`expires_in`. -/
def tokRespNoAccess : TokenResponse :=
  { access_token := none, refresh_token := none, expires_in := some 3600 }

/-- Fixture environment whose stage-5 token response is `tokRespNoAccess`. -/
def envNoAccessToken : Env :=
  { envBase with token_resp := Except.ok tokRespNoAccess }

/-- The credential the handshake produces in `envNoAccessToken`. -/
def credNoToken : Creds := mkCreds (none, none, 3650)

/-- The trace of a completed five-stage handshake with the persisted-load
flag and the written slot as given. -/
def traceHandshake (la : Bool) (w : Option Creds) : Trace :=
  { Trace.base with
    loadAttempted := la
    stage1 := true
    stage2 := true
    stage3 := true
    stage4 := true
    stage5 := true
    written := w }


theorem splitOnceAux_append_of_not_mem (sep : Char) (a b : List Char) (ha : sep ∉ a) :
    splitOnceAux sep (a ++ sep :: b) = some (a, b) := by
  induction a with
  | nil => simp [splitOnceAux]
  | cons c cs ih =>
    have hc : ¬(c = sep) := fun h => ha (by simp [h])
    have hcs : sep ∉ cs := fun h => ha (List.mem_cons_of_mem c h)
    simp [splitOnceAux, hc, ih hcs]

theorem splitOnce_append_of_not_mem (sep : Char) (a b : List Char) (ha : sep ∉ a) :
    splitOnce sep (String.mk (a ++ sep :: b)) = some (String.mk a, String.mk b) := by
  simp [splitOnce, splitOnceAux_append_of_not_mem sep a b ha]

theorem runHandshake_stage1 (env : Env) : (runHandshake env).2.stage1 = true := by
  unfold runHandshake
  repeat' split
  all_goals rfl

theorem runHandshake_refreshCalled (env : Env) :
    (runHandshake env).2.refreshCalled = false := by
  unfold runHandshake
  repeat' split
  all_goals rfl

theorem runFullAndPersist_stage1 (env : Env) (f la : Bool) :
    (runFullAndPersist env f la).2.stage1 = true := by
  have h := runHandshake_stage1 env
  rcases hrh : runHandshake env with ⟨r, t⟩
  rw [hrh] at h
  unfold runFullAndPersist
  rw [hrh]
  cases r with
  | error e => simpa using h
  | ok c =>
    simp only [persistCreds]
    split
    · simpa using h
    · simpa using h

theorem runFullAndPersist_refreshCalled (env : Env) (f la : Bool) :
    (runFullAndPersist env f la).2.refreshCalled = false := by
  have h := runHandshake_refreshCalled env
  rcases hrh : runHandshake env with ⟨r, t⟩
  rw [hrh] at h
  unfold runFullAndPersist
  rw [hrh]
  cases r with
  | error e => simpa using h
  | ok c =>
    simp only [persistCreds]
    split
    · simpa using h
    · simpa using h

/-- C1: a persisted credential whose expiration is in the future and whose
access token is non-empty is returned by `get_sharefile_credentials` (with
`force_refresh` false) exactly as loaded: no handshake stage issues its HTTP
call, the refresh operation is not invoked, and the persisted record is not
re-written. -/
theorem C1_valid_persisted_credential_returned_unchanged
    (env : Env) (c : Creds) (s : String)
    (hs : env.stored = some c) (hv : env.now < c.expiration)
    (_ht : c.token = some s) (_hne : s ≠ "") :
    get_sharefile_credentials env false =
      (Except.ok c, { Trace.base with loadAttempted := true }) := by
  simp [get_sharefile_credentials, hs, Creds.valid, hv]

/-- Witness for C1 at the concrete fixture `envValidStored`. -/
theorem C1_witness :
    envValidStored.stored = some credValid ∧
    envValidStored.now < credValid.expiration ∧
    credValid.token = some "tok" ∧
    get_sharefile_credentials envValidStored false =
      (Except.ok credValid, { Trace.base with loadAttempted := true }) :=
  ⟨rfl, by decide, rfl,
    C1_valid_persisted_credential_returned_unchanged envValidStored credValid "tok"
      rfl (by decide) rfl (by decide)⟩

/-- C2 amended: when the loaded credential is expired with a truthy refresh
token and the refresh POST fails, `get_sharefile_credentials` propagates the
refresh failure to the caller; it does not fall back to the handshake (no
stage runs) and nothing is persisted. -/
theorem C2_refresh_failure_propagates (env : Env) (c : Creds) (e : PyErr)
    (hs : env.stored = some c) (hexp : c.expiration ≤ env.now)
    (hrt : pyTruthy c.refresh_token = true)
    (hrf : env.refresh_resp = Except.error e) :
    get_sharefile_credentials env false =
      (Except.error e,
       { Trace.base with loadAttempted := true, refreshCalled := true }) := by
  have hv : c.valid env.now = false := by
    simp [Creds.valid]
    omega
  simp [get_sharefile_credentials, hs, hv, Creds.expired, hrt, sf_refresh, hrf]

/-- C2 counterexample: in `envRefreshFail` (expired refreshable credential,
refresh POST failing with a network error) the call raises the refresh error
instead of falling back to the handshake: no stage runs, nothing is written,
and the refresh error reaches the caller. -/
theorem C2_counterexample :
    get_sharefile_credentials envRefreshFail false =
      (Except.error PyErr.requestError,
       { Trace.base with loadAttempted := true, refreshCalled := true }) ∧
    (get_sharefile_credentials envRefreshFail false).2.stage1 = false ∧
    (get_sharefile_credentials envRefreshFail false).2.written = none :=
  ⟨rfl, rfl, rfl⟩

/-- Witness for the amended C2 at the concrete fixture `envRefreshFail`. -/
theorem C2_witness :
    envRefreshFail.stored = some credExpired ∧
    credExpired.expiration ≤ envRefreshFail.now ∧
    pyTruthy credExpired.refresh_token = true ∧
    get_sharefile_credentials envRefreshFail false =
      (Except.error PyErr.requestError,
       { Trace.base with loadAttempted := true, refreshCalled := true }) :=
  ⟨rfl, by decide, by decide,
    C2_refresh_failure_propagates envRefreshFail credExpired PyErr.requestError
      rfl (by decide) (by decide) rfl⟩

/-- C3 (code bug): with `force_refresh` true the persisted load is indeed
skipped (`loadAttempted` is false although a valid credential sits in the
store) and all five handshake stages run, but the call then raises
`UnboundLocalError` instead of persisting and returning the new credential:
`token_path` is only assigned inside the `if not force_refresh:` block yet
is used by the persist epilogue. -/
theorem C3_force_refresh_unbound_token_path :
    get_sharefile_credentials envValidStored true =
      (Except.error PyErr.unboundLocalError, traceHandshake false none) :=
  rfl

/-- C4 amended: stage 1 never raises an exception of its own; it returns
the optional `sessionToken` field as is — `None` when the field is absent,
the field's value when present. -/
theorem C4_session_token_extraction (resp : OktaResponse) :
    (resp.sessionToken = none → get_okta_session_token resp = Except.ok none) ∧
    (∀ s, resp.sessionToken = some s →
      get_okta_session_token resp = Except.ok (some s)) ∧
    (∀ e, get_okta_session_token resp ≠ Except.error e) := by
  refine ⟨fun h => ?_, fun s h => ?_, fun e h => ?_⟩
  · simp [get_okta_session_token, h]
  · simp [get_okta_session_token, h]
  · simp [get_okta_session_token] at h

/-- C4 counterexample: on a stage-1 response without `sessionToken` the
function returns `Except.ok none` — it does not raise
`AuthenticationError` (nor any other exception). -/
theorem C4_counterexample :
    get_okta_session_token { sessionToken := none } = Except.ok none ∧
    (Except.ok (none : Option String) : Except PyErr (Option String)) ≠
      Except.error PyErr.authenticationError :=
  ⟨rfl, fun h => Except.noConfusion h⟩

/-- Witness for the amended C4 at a concrete present `sessionToken`. -/
theorem C4_witness :
    get_okta_session_token { sessionToken := some "sess" } = Except.ok (some "sess") :=
  (C4_session_token_extraction { sessionToken := some "sess" }).2.1 "sess" rfl

/-- C5 amended: when the stage-2 page has no `<input id="fromURI">` element,
the handshake raises `AttributeError` (from `.get('value')` on `None`) — not
a `ProtocolParseError`, which the code never defines — and aborts: stages 3,
4 and 5 never issue their HTTP calls and nothing is persisted. -/
theorem C5_missing_fromuri_aborts_handshake
    (env : Env) (r : OktaResponse) (page : Html)
    (h1 : env.okta = Except.ok r) (h2 : env.saml_login = Except.ok page)
    (hm : page.find? (fun i => i.id = some "fromURI") = none) :
    runHandshake env =
      (Except.error PyErr.attributeError,
       { Trace.base with stage1 := true, stage2 := true }) := by
  simp [runHandshake, h1, h2, get_okta_session_token, get_sharefile_saml_request, hm]

/-- C5 counterexample: on a concrete page lacking the `fromURI` input the
stage-2 function raises `AttributeError`, which is a different exception
class than the `ProtocolParseError` the claim names. -/
theorem C5_counterexample :
    get_sharefile_saml_request pageNoFromURI = Except.error PyErr.attributeError ∧
    PyErr.attributeError ≠ PyErr.protocolParseError :=
  ⟨rfl, by decide⟩

/-- Witness for the amended C5 at the concrete fixture `envNoFromURI`. -/
theorem C5_witness :
    runHandshake envNoFromURI =
      (Except.error PyErr.attributeError,
       { Trace.base with stage1 := true, stage2 := true }) :=
  C5_missing_fromuri_aborts_handshake envNoFromURI { sessionToken := some "sess" }
    pageNoFromURI rfl rfl (by decide)

/-- C6 amended: with at least two recorded redirects whose second Location
header has the shape `pre?k=v&rest` (first `?`, first `=` of the query, next
`&`), stage 4 returns `v`, the substring after the first `=` of the query
component and before the next `&`; with fewer than two recorded redirects it
raises `IndexError` (from `t.history[1]`) — not a `ProtocolParseError`,
which the code never defines. -/
theorem C6_auth_code_second_redirect (hist : List Redirect) (r : Redirect)
    (pre k v rest : List Char)
    (hh : hist.get? 1 = some r)
    (hl : r.location = some (String.mk (pre ++ '?' :: (k ++ '=' :: (v ++ '&' :: rest)))))
    (hpre : '?' ∉ pre) (hk : '=' ∉ k) (hv : '&' ∉ v) :
    get_sharefile_auth_code hist = Except.ok (String.mk v) ∧
    ∀ hist2 : List Redirect, hist2.length ≤ 1 →
      get_sharefile_auth_code hist2 = Except.error PyErr.indexError := by
  constructor
  · simp only [get_sharefile_auth_code, hh, hl,
      splitOnce_append_of_not_mem '?' pre (k ++ '=' :: (v ++ '&' :: rest)) hpre,
      splitOnce_append_of_not_mem '=' k (v ++ '&' :: rest) hk,
      splitOnce_append_of_not_mem '&' v rest hv]
  · intro hist2 hlen
    have hn : hist2.get? 1 = none := List.get?_eq_none.mpr hlen
    rw [List.get?_eq_getElem?] at hn
    simp [get_sharefile_auth_code, hn]

/-- C6 counterexample: with an empty redirect history stage 4 raises
`IndexError`, a different exception class than the `ProtocolParseError` the
claim names. -/
theorem C6_counterexample :
    get_sharefile_auth_code [] = Except.error PyErr.indexError ∧
    PyErr.indexError ≠ PyErr.protocolParseError :=
  ⟨rfl, by decide⟩

/-- Witness for the amended C6: the fixture history yields the code
`abc123` embedded in `https://h/p?code=abc123&h=1`, and a one-redirect
history raises `IndexError`. -/
theorem C6_witness :
    get_sharefile_auth_code histGood = Except.ok "abc123" ∧
    get_sharefile_auth_code [{ location := some "https://a/b" }] =
      Except.error PyErr.indexError := by
  have h := C6_auth_code_second_redirect histGood
    { location := some "https://h/p?code=abc123&h=1" }
    ("https://h/p".data) ("code".data) ("abc123".data) ("h=1".data)
    rfl (by decide) (by decide) (by decide) (by decide)
  exact ⟨by rw [h.1], h.2 [{ location := some "https://a/b" }] (by decide)⟩

/-- C7 amended: stage 5 performs no check on `access_token`: when
`expires_in` is present it returns the optional `access_token` and
`refresh_token` fields as they are (even absent) together with
`expiration = now + expires_in`; when `expires_in` is absent it raises
`TypeError` (from `None` in the addition) — the code never raises
`TokenExchangeError`, which it does not define. -/
theorem C7_token_exchange_no_access_check (now : Nat) (resp : TokenResponse) :
    (∀ e, resp.expires_in = some e →
      get_sharefile_access_tokens now resp =
        Except.ok (resp.access_token, resp.refresh_token, now + e)) ∧
    (resp.expires_in = none →
      get_sharefile_access_tokens now resp = Except.error PyErr.typeError) := by
  constructor
  · intro e he
    simp [get_sharefile_access_tokens, he]
  · intro he
    simp [get_sharefile_access_tokens, he]

/-- C7 counterexample: on a stage-5 response without `access_token` (but
with `expires_in`) the function succeeds with a `None` access token — it
does not raise the `TokenExchangeError` the claim names. -/
theorem C7_counterexample :
    get_sharefile_access_tokens 50 tokRespNoAccess = Except.ok (none, none, 3650) ∧
    (Except.ok ((none : Option String), (none : Option String), (3650 : Nat)) :
        Except PyErr (Option String × Option String × Nat)) ≠
      Except.error PyErr.tokenExchangeError :=
  ⟨rfl, fun h => Except.noConfusion h⟩

/-- Witness for the amended C7 at the concrete fixture `tokRespGood`. -/
theorem C7_witness :
    get_sharefile_access_tokens 50 tokRespGood =
      Except.ok (some "newtok", some "newrt", 3650) :=
  (C7_token_exchange_no_access_check 50 tokRespGood).1 3600 rfl

theorem get_sharefile_credentials_falsy_rt (env : Env) (c : Creds)
    (hs : env.stored = some c) (hv : c.valid env.now = false)
    (hpt : pyTruthy c.refresh_token = false) :
    get_sharefile_credentials env false = runFullAndPersist env false true := by
  simp [get_sharefile_credentials, hs, hv, Creds.expired, hpt]

/-- C8: a loaded credential that is expired and whose refresh token is empty
(`None` or `""`, both falsy in Python) never triggers the refresh operation:
the call falls through to the full five-stage handshake (stage 1 issues its
HTTP call). -/
theorem C8_empty_refresh_token_never_refreshes (env : Env) (c : Creds)
    (hs : env.stored = some c) (hexp : c.expiration ≤ env.now)
    (hrt : c.refresh_token = none ∨ c.refresh_token = some "") :
    (get_sharefile_credentials env false).2.refreshCalled = false ∧
    (get_sharefile_credentials env false).2.stage1 = true := by
  have hv : c.valid env.now = false := by
    simp [Creds.valid]
    omega
  have hpt : pyTruthy c.refresh_token = false := by
    rcases hrt with h | h <;> simp [pyTruthy, h]
  rw [get_sharefile_credentials_falsy_rt env c hs hv hpt]
  exact ⟨runFullAndPersist_refreshCalled env false true, runFullAndPersist_stage1 env false true⟩

/-- Witness for C8 at a concrete expired credential with an empty refresh
token. -/
theorem C8_witness :
    (get_sharefile_credentials { envBase with stored := some credExpiredNoRT } false).2.refreshCalled = false ∧
    (get_sharefile_credentials { envBase with stored := some credExpiredNoRT } false).2.stage1 = true :=
  C8_empty_refresh_token_never_refreshes { envBase with stored := some credExpiredNoRT }
    credExpiredNoRT rfl (by decide) (Or.inr rfl)

theorem get_sharefile_access_tokens_fst (now : Nat) (resp : TokenResponse)
    (tok : Option String × Option String × Nat)
    (h : get_sharefile_access_tokens now resp = Except.ok tok) :
    tok.1 = resp.access_token := by
  unfold get_sharefile_access_tokens at h
  split at h
  · exact Except.noConfusion h
  · cases h
    rfl

/-- C9 amended: the subsystem passes the token-endpoint's `access_token`
field through to the credential unvalidated — both the stage-5 handshake and
a successful refresh store exactly the response's `access_token` — so the
invariant "valid implies non-empty access token" holds when (and only
because) the response carried a non-empty `access_token`; nothing in the
code enforces it. -/
theorem C9_access_token_passthrough :
    (∀ env tresp c, env.token_resp = Except.ok tresp →
      (runHandshake env).1 = Except.ok c → c.token = tresp.access_token) ∧
    (∀ j now c c1, sf_refresh (Except.ok j) now c = (Except.ok (), c1) →
      c1.token = j.access_token) := by
  constructor
  · intro env tresp c ht hrun
    unfold runHandshake at hrun
    rw [ht] at hrun
    simp only [get_okta_session_token] at hrun
    repeat' split at hrun
    all_goals try exact Except.noConfusion hrun
    rename_i tok heq
    have h1 := get_sharefile_access_tokens_fst env.now tresp tok heq
    have h2 : mkCreds tok = c := Except.ok.inj hrun
    subst h2
    simpa [mkCreds] using h1
  · intro j now c c1 h
    cases hje : j.expires_in with
    | none =>
      simp only [sf_refresh, hje] at h
      exact absurd (congrArg Prod.fst h) (by simp)
    | some e =>
      simp only [sf_refresh, hje] at h
      have h2 := congrArg Prod.snd h
      simp only at h2
      rw [← h2]

/-- C9 counterexample: with a stage-5 response lacking `access_token` but
carrying `expires_in`, the call produces — and persists — a credential whose
access token is `None` although the credential is valid (time 100 is before
its expiration 3650): the claimed invariant fails on the code. -/
theorem C9_counterexample :
    (get_sharefile_credentials envNoAccessToken false).1 = Except.ok credNoToken ∧
    (get_sharefile_credentials envNoAccessToken false).2.written = some credNoToken ∧
    credNoToken.valid 100 = true ∧
    credNoToken.token = none :=
  ⟨rfl, rfl, rfl, rfl⟩

/-- Witness for the amended C9: in `envBase` the handshake credential's
token is exactly the stage-5 response's `access_token`. -/
theorem C9_witness :
    (mkCreds (some "newtok", some "newrt", 3650)).token = tokRespGood.access_token :=
  C9_access_token_passthrough.1 envBase tokRespGood
    (mkCreds (some "newtok", some "newrt", 3650)) rfl rfl

/-- C10: when the refresh response decodes but lacks `expires_in`,
`sf_refresh` raises `TypeError` at the expiration computation after having
already overwritten `_token` and `_refresh_token` with the response's
(possibly `None`) values, leaving the credential partially mutated with its
old expiration. -/
theorem C10_failed_refresh_partially_mutates
    (rr : Except PyErr TokenResponse) (j : TokenResponse) (now : Nat) (c : Creds)
    (hok : rr = Except.ok j) (he : j.expires_in = none) :
    sf_refresh rr now c =
      (Except.error PyErr.typeError,
       { c with token := j.access_token, refresh_token := j.refresh_token }) := by
  subst hok
  simp [sf_refresh, he]

/-- Witness for C10 at the concrete fixture `tokRespNoExpiry`: the old
token `"tok"` and refresh token `"rt"` are overwritten by `"a2"`/`"r2"`
while the expiration stays at the old value 10. -/
theorem C10_witness :
    sf_refresh (Except.ok tokRespNoExpiry) 50 credExpired =
      (Except.error PyErr.typeError,
       { credExpired with token := some "a2", refresh_token := some "r2" }) :=
  C10_failed_refresh_partially_mutates (Except.ok tokRespNoExpiry) tokRespNoExpiry
    50 credExpired rfl rfl
